import Mathlib

/-! LVGL joystick: embedding of `lvgl_joystick.c` / `lvgl_joystick.h`

The C code is embedded as pure functions on an explicit widget state.

* Machine integers are `Int`/`Nat` with explicit wrap-around: `int32_t`
  arithmetic goes through `wrapInt32`, the `int16_t` callback parameters
  through `wrapInt16`, the `uint8_t` record fields through `wrapUInt8`.
* The floating point comparison `sqrt(x * x + y * y) < base_radius -
  (stick_radius * 1.2)` is taken at its exact real value (`sqrt_lt`, over `ℚ`):
  the rounding of the root to `float` and of the product to `double` is not
  modelled. The square root of a negative number is NaN and compares false.
* The host framework (LVGL) is reduced to what the code uses of it: the handle's
  offset from its centre anchor (`lv_obj_get_x_aligned`, `lv_obj_set_pos`), its
  user-data slot, the vector of the active input device, the event code.
* A call of the application callback is recorded in a trace (`callback_call`).
-/

namespace LvglJoystick

/-! ## Machine integers -/

/-- Value of a mathematical integer stored in an `int32_t` (two's complement). -/
def wrapInt32 (v : Int) : Int := (v + 2147483648) % 4294967296 - 2147483648

/-- Value of a mathematical integer stored in an `int16_t` (two's complement). -/
def wrapInt16 (v : Int) : Int := (v + 32768) % 65536 - 32768

/-- Value of a mathematical integer stored in a `uint8_t`. -/
def wrapUInt8 (v : Int) : Nat := (v % 256).toNat

/-! ## Data model (`lvgl_joystick.h`) -/

/-- The enum `joystick_report_mode_t`. -/
inductive joystick_report_mode_t where
  | JOYSTICK_REPORT_MODE_ABSOLUTE
  | JOYSTICK_REPORT_MODE_RELATIVE
  deriving DecidableEq, Repr

open joystick_report_mode_t

/-- The struct `joystick_data_t`. The three `uint8_t` fields are naturals (below 256 in
every record the C type can hold, see `joystick_data_t.valid`); `position_callback` is
the callback's address, `none` for the null pointer. -/
structure joystick_data_t where
  joystick_id : Nat
  base_radius : Nat
  stick_radius : Nat
  report_mode : joystick_report_mode_t
  position_callback : Option Nat
  deriving DecidableEq, Repr

/-- The range of the `uint8_t` fields of `joystick_data_t`. -/
def joystick_data_t.valid (d : joystick_data_t) : Prop :=
  d.joystick_id < 256 ∧ d.base_radius < 256 ∧ d.stick_radius < 256

instance (d : joystick_data_t) : Decidable d.valid := by
  unfold joystick_data_t.valid; infer_instance

/-- One invocation `position_callback(joystick_id, x, y)` of the callback at address
`callback`; `x` and `y` are the values received in the `int16_t` parameters. -/
structure callback_call where
  callback : Nat
  joystick_id : Nat
  x : Int
  y : Int
  deriving DecidableEq, Repr

/-! ## Host framework state -/

/-- The struct `lv_point_t` (two `int32_t` coordinates). -/
structure lv_point_t where
  x : Int
  y : Int
  deriving DecidableEq, Repr

/-- The user-data slot of the handle widget: the null pointer, a pointer to a live
`joystick_data_t`, or a pointer whose target has been passed to `free`. -/
inductive user_data_t where
  | null
  | live (data : joystick_data_t)
  | freed
  deriving DecidableEq, Repr

/-- The handle widget `stick_obj`, as far as the joystick code reads and writes it:
its offset from the centre of the base (`x`, `y`) and its user-data slot. -/
structure lv_obj_t where
  x : Int
  y : Int
  user_data : user_data_t
  deriving DecidableEq, Repr

/-- Host primitive `lv_obj_get_x_aligned`. -/
def lv_obj_get_x_aligned (obj : lv_obj_t) : Int := obj.x

/-- Host primitive `lv_obj_get_y_aligned`. -/
def lv_obj_get_y_aligned (obj : lv_obj_t) : Int := obj.y

/-- Host primitive `lv_obj_set_pos`. -/
def lv_obj_set_pos (obj : lv_obj_t) (x y : Int) : lv_obj_t := { obj with x := x, y := y }

/-- The event codes `lv_event_code_t` the handler distinguishes; every other code is
`LV_EVENT_OTHER`. -/
inductive lv_event_code_t where
  | LV_EVENT_PRESSING
  | LV_EVENT_RELEASED
  | LV_EVENT_DELETE
  | LV_EVENT_OTHER
  deriving DecidableEq, Repr

open lv_event_code_t

/-! ## `lvgl_joystick.c` -/

/-- The comparison `sqrt(n) < t` at its exact real value: false for negative `n`
(the root is NaN), otherwise `0 < t` and `n < t * t`. -/
def sqrt_lt (n : Int) (t : ℚ) : Bool :=
  decide (0 ≤ n) && (decide (0 < t) && decide ((n : ℚ) < t * t))

/-- The local `should_move_stick` of `joystick_handle_pressing` for the candidate
`(x, y)`: `sqrt(x * x + y * y) < base_radius - (stick_radius * 1.2)`, the radicand
computed in `int32_t`. -/
def should_move_stick (base_radius stick_radius : Nat) (x y : Int) : Bool :=
  sqrt_lt (wrapInt32 (wrapInt32 (x * x) + wrapInt32 (y * y)))
    ((base_radius : ℚ) - ((stick_radius : ℚ) * 1.2))

/-- The function `joystick_trigger_callback`: `x` and `y` are converted to the `int16_t`
parameters, and the callback is invoked when it is not null. -/
def joystick_trigger_callback (data : joystick_data_t) (x y : Int) : List callback_call :=
  match data.position_callback with
  | some cb => [{ callback := cb, joystick_id := data.joystick_id,
                  x := wrapInt16 x, y := wrapInt16 y }]
  | none => []

/-- The function `joystick_handle_release`. -/
def joystick_handle_release (data : joystick_data_t) (stick_obj : lv_obj_t) :
    lv_obj_t × List callback_call :=
  let stick_obj := lv_obj_set_pos stick_obj 0 0
  if data.report_mode = JOYSTICK_REPORT_MODE_ABSOLUTE then
    (stick_obj, joystick_trigger_callback data 0 0)
  else
    (stick_obj, [])

/-- The function `joystick_handle_pressing`. `indev` is the result of
`lv_indev_active()`: `none` for the null pointer, otherwise the vector that
`lv_indev_get_vect` reads from the device. -/
def joystick_handle_pressing (data : joystick_data_t) (indev : Option lv_point_t)
    (stick_obj : lv_obj_t) : lv_obj_t × List callback_call :=
  match indev with
  | none => (stick_obj, [])
  | some vect =>
    let x := wrapInt32 (lv_obj_get_x_aligned stick_obj + vect.x)
    let y := wrapInt32 (lv_obj_get_y_aligned stick_obj + vect.y)
    if !should_move_stick data.base_radius data.stick_radius x y then
      (stick_obj, [])
    else
      let stick_obj := lv_obj_set_pos stick_obj x y
      match data.position_callback with
      | none => (stick_obj, [])
      | some _ =>
        match data.report_mode with
        | JOYSTICK_REPORT_MODE_ABSOLUTE => (stick_obj, joystick_trigger_callback data x y)
        | JOYSTICK_REPORT_MODE_RELATIVE =>
          (stick_obj, joystick_trigger_callback data vect.x vect.y)

/-- The function `joystic_event_handler` for an event with code `code` whose target is
`obj`. The result is `none` where the C code has no defined behaviour: the user-data
pointer is not null but its target has been freed, and the code dereferences it
(`LV_EVENT_PRESSING`, `LV_EVENT_RELEASED`) or frees it again (`LV_EVENT_DELETE`). -/
def joystic_event_handler (code : lv_event_code_t) (indev : Option lv_point_t)
    (obj : lv_obj_t) : Option (lv_obj_t × List callback_call) :=
  match obj.user_data with
  | user_data_t.null => some (obj, [])
  | user_data_t.live joystick_data =>
    match code with
    | LV_EVENT_PRESSING => some (joystick_handle_pressing joystick_data indev obj)
    | LV_EVENT_RELEASED => some (joystick_handle_release joystick_data obj)
    | LV_EVENT_DELETE => some ({ obj with user_data := user_data_t.freed }, [])
    | LV_EVENT_OTHER => some (obj, [])
  | user_data_t.freed =>
    match code with
    | LV_EVENT_PRESSING => none
    | LV_EVENT_RELEASED => none
    | LV_EVENT_DELETE => none
    | LV_EVENT_OTHER => some (obj, [])

/-- What `create_joystick` leaves behind: the width of the base widget, the width of the
handle widget (both from `lv_obj_set_size`), and the handle widget itself. -/
structure joystick_widgets where
  base_width : Int
  stick_width : Int
  stick_obj : lv_obj_t
  deriving DecidableEq, Repr

/-- The function `create_joystick`: the record is filled from the arguments
(`base_radius` and `stick_radius` are `int` arguments stored in `uint8_t` fields), the
base and the handle get the sizes `base_radius * 2` and `stick_radius * 2`, the handle
is centred (`lv_obj_center`) and the record is attached as its user data.
`malloc_ok = false` is the case where `malloc` returns the null pointer, which the code
writes through: no defined behaviour, `none`. The parent, the alignment and the styles
do not reach the record and are left out. -/
def create_joystick (malloc_ok : Bool) (joystick_id : Nat) (base_radius stick_radius : Int)
    (position_callback : Option Nat) (report_mode : joystick_report_mode_t) :
    Option joystick_widgets :=
  if malloc_ok then
    some { base_width := wrapInt32 (base_radius * 2)
           stick_width := wrapInt32 (stick_radius * 2)
           stick_obj :=
             { x := 0, y := 0,
               user_data := user_data_t.live
                 { joystick_id := joystick_id
                   base_radius := wrapUInt8 base_radius
                   stick_radius := wrapUInt8 stick_radius
                   report_mode := report_mode
                   position_callback := position_callback } } }
  else none

/-! ## Event sequences -/

/-- One delivery of an event to the handle widget: the event code, and the result of
`lv_indev_active()` with the vector of that device at the time of delivery. -/
structure lv_event_t where
  code : lv_event_code_t
  indev : Option lv_point_t
  deriving DecidableEq, Repr

/-- A press-move event with pointer delta `(dx, dy)`. -/
def press_move (dx dy : Int) : lv_event_t :=
  { code := LV_EVENT_PRESSING, indev := some { x := dx, y := dy } }

/-- A release event. -/
def release : lv_event_t := { code := LV_EVENT_RELEASED, indev := none }

/-- Delivery of a sequence of events to the handle, one after the other, from the state
`st`: the widget and the callback invocations so far. `none` as soon as one delivery has
no defined behaviour. -/
def run (st : lv_obj_t × List callback_call) :
    List lv_event_t → Option (lv_obj_t × List callback_call)
  | [] => some st
  | e :: es =>
    match joystic_event_handler e.code e.indev st.1 with
    | none => none
    | some r => run (r.1, st.2 ++ r.2) es

/-- The outcome of the test of `joystick_handle_pressing` on the candidate it computes
from the handle's position and the device vector: `true` when the handle is moved. -/
def accepts (data : joystick_data_t) (vect : lv_point_t) (stick_obj : lv_obj_t) : Bool :=
  should_move_stick data.base_radius data.stick_radius
    (wrapInt32 (lv_obj_get_x_aligned stick_obj + vect.x))
    (wrapInt32 (lv_obj_get_y_aligned stick_obj + vect.y))

/-! ## The specification's admissibility test -/

/-- The specification's admissibility test for a position `(x, y)` relative to the
centre: its Euclidean distance from the centre is strictly less than
`base_radius - 1.2 * stick_radius`. -/
def within_limit (base_radius stick_radius : Nat) (x y : Int) : Prop :=
  Real.sqrt ((x : ℝ) ^ 2 + (y : ℝ) ^ 2) < (base_radius : ℝ) - 1.2 * (stick_radius : ℝ)

/-- A press-move or release event whose pointer delta, when it has one, is at most 46086
on each axis. -/
def bounded_drag (e : lv_event_t) : Prop :=
  (e.code = LV_EVENT_PRESSING ∨ e.code = LV_EVENT_RELEASED) ∧
    ∀ v, e.indev = some v → (-46086 ≤ v.x ∧ v.x ≤ 46086) ∧ (-46086 ≤ v.y ∧ v.y ≤ 46086)

/-- The component-wise sum of the `(x, y)` pairs passed to the callback in `calls`. -/
def reported_sum (calls : List callback_call) : Int × Int :=
  ((calls.map callback_call.x).sum, (calls.map callback_call.y).sum)

/-! ## Arithmetic of the admissibility test -/

theorem wrapInt32_of_range (v : Int) (h1 : -2147483648 ≤ v) (h2 : v < 2147483648) :
    wrapInt32 v = v := by
  unfold wrapInt32; omega

theorem wrapInt16_of_range (v : Int) (h1 : -32768 ≤ v) (h2 : v < 32768) :
    wrapInt16 v = v := by
  unfold wrapInt16; omega

theorem sqrt_lt_iff (n : Int) (t : ℚ) :
    sqrt_lt n t = true ↔ 0 ≤ n ∧ 0 < t ∧ (n : ℚ) < t * t := by
  simp [sqrt_lt]

theorem sqrt_lt_iff_real (n : Int) (t : ℚ) :
    sqrt_lt n t = true ↔ 0 ≤ n ∧ Real.sqrt (n : ℝ) < (t : ℝ) := by
  rw [sqrt_lt_iff]
  constructor
  · rintro ⟨h0, ht, h⟩
    refine ⟨h0, ?_⟩
    have ht' : (0 : ℝ) < (t : ℝ) := by exact_mod_cast ht
    rw [Real.sqrt_lt' ht']
    have : ((n : ℚ) : ℝ) < ((t * t : ℚ) : ℝ) := by exact_mod_cast h
    push_cast at this
    nlinarith
  · rintro ⟨h0, h⟩
    have ht' : (0 : ℝ) < (t : ℝ) := lt_of_le_of_lt (Real.sqrt_nonneg _) h
    rw [Real.sqrt_lt' ht'] at h
    refine ⟨h0, by exact_mod_cast ht', ?_⟩
    have : ((n : ℚ) : ℝ) < ((t * t : ℚ) : ℝ) := by push_cast; nlinarith
    exact_mod_cast this

theorem threshold_pos_iff (b s : Nat) :
    (0 : ℚ) < (b : ℚ) - (s : ℚ) * 1.2 ↔ 6 * (s : Int) < 5 * b := by
  constructor
  · intro h
    have : (6 * (s : Int) : ℚ) < (5 * (b : Int) : ℚ) := by push_cast; norm_num at h; linarith
    exact_mod_cast this
  · intro h
    have : (6 * (s : Int) : ℚ) < (5 * (b : Int) : ℚ) := by exact_mod_cast h
    push_cast at this; norm_num; linarith

theorem lt_threshold_sq_iff (b s : Nat) (n : Int) :
    (n : ℚ) < ((b : ℚ) - (s : ℚ) * 1.2) * ((b : ℚ) - (s : ℚ) * 1.2) ↔
      25 * n < (5 * (b : Int) - 6 * s) ^ 2 := by
  have e : ((b : ℚ) - (s : ℚ) * 1.2) * ((b : ℚ) - (s : ℚ) * 1.2)
      = ((5 * (b : Int) - 6 * s) ^ 2 : Int) / 25 := by
    push_cast; norm_num; ring
  rw [e, lt_div_iff₀ (by norm_num : (0 : ℚ) < 25)]
  constructor
  · intro h
    have : ((25 * n : Int) : ℚ) < (((5 * (b : Int) - 6 * s) ^ 2 : Int) : ℚ) := by
      push_cast at h ⊢; linarith
    exact_mod_cast this
  · intro h
    have : ((25 * n : Int) : ℚ) < (((5 * (b : Int) - 6 * s) ^ 2 : Int) : ℚ) := by
      exact_mod_cast h
    push_cast at this ⊢; linarith

theorem should_move_stick_iff (b s : Nat) (x y : Int) :
    should_move_stick b s x y = true ↔
      0 ≤ wrapInt32 (wrapInt32 (x * x) + wrapInt32 (y * y)) ∧ 6 * (s : Int) < 5 * b ∧
        25 * wrapInt32 (wrapInt32 (x * x) + wrapInt32 (y * y)) < (5 * (b : Int) - 6 * s) ^ 2 := by
  unfold should_move_stick
  rw [sqrt_lt_iff, threshold_pos_iff, lt_threshold_sq_iff]

theorem within_limit_iff (b s : Nat) (x y : Int) :
    within_limit b s x y ↔
      6 * (s : Int) < 5 * b ∧ 25 * (x * x + y * y) < (5 * (b : Int) - 6 * s) ^ 2 := by
  have hn : (0 : Int) ≤ x * x + y * y := by nlinarith [mul_self_nonneg x, mul_self_nonneg y]
  have key := sqrt_lt_iff_real (x * x + y * y) ((b : ℚ) - (s : ℚ) * 1.2)
  rw [sqrt_lt_iff, threshold_pos_iff, lt_threshold_sq_iff] at key
  unfold within_limit
  have e1 : ((x * x + y * y : Int) : ℝ) = (x : ℝ) ^ 2 + (y : ℝ) ^ 2 := by push_cast; ring
  have e2 : (((b : ℚ) - (s : ℚ) * 1.2 : ℚ) : ℝ) = (b : ℝ) - 1.2 * (s : ℝ) := by
    push_cast; ring
  rw [e1, e2] at key
  constructor
  · intro h
    have := key.mpr ⟨hn, h⟩
    exact ⟨this.2.1, this.2.2⟩
  · rintro ⟨h1, h2⟩
    exact (key.mp ⟨hn, h1, h2⟩).2


theorem wrapInt32_add_wrap (a b : Int) :
    wrapInt32 (wrapInt32 a + wrapInt32 b) = wrapInt32 (a + b) := by
  unfold wrapInt32; omega

theorem sq_le_of_bounds (x : Int) (h1 : -46340 ≤ x) (h2 : x ≤ 46340) :
    0 ≤ x * x ∧ x * x ≤ 2147395600 := by
  constructor
  · exact mul_self_nonneg x
  · nlinarith

theorem within_limit_bound (b s : Nat) (x y : Int) (hb : b < 256)
    (h : within_limit b s x y) :
    x * x + y * y < 65025 ∧ -254 ≤ x ∧ x ≤ 254 ∧ -254 ≤ y ∧ y ≤ 254 := by
  rw [within_limit_iff] at h
  obtain ⟨h1, h2⟩ := h
  have hb' : (b : Int) < 256 := by exact_mod_cast hb
  have hs : (0 : Int) ≤ s := Int.natCast_nonneg s
  have hsum : x * x + y * y < 65025 := by nlinarith
  have hx := mul_self_nonneg x
  have hy := mul_self_nonneg y
  refine ⟨hsum, ?_, ?_, ?_, ?_⟩ <;> nlinarith

theorem should_move_stick_of_within_limit (b s : Nat) (x y : Int) (hb : b < 256)
    (h : within_limit b s x y) : should_move_stick b s x y = true := by
  have hbd := within_limit_bound b s x y hb h
  rw [within_limit_iff] at h
  have hx := mul_self_nonneg x
  have hy := mul_self_nonneg y
  have e : wrapInt32 (wrapInt32 (x * x) + wrapInt32 (y * y)) = x * x + y * y := by
    rw [wrapInt32_add_wrap]
    exact wrapInt32_of_range _ (by linarith) (by linarith)
  rw [should_move_stick_iff, e]
  exact ⟨by linarith, h.1, h.2⟩

theorem within_limit_of_should_move_stick (b s : Nat) (x y : Int)
    (hx1 : -46340 ≤ x) (hx2 : x ≤ 46340) (hy1 : -46340 ≤ y) (hy2 : y ≤ 46340)
    (h : should_move_stick b s x y = true) : within_limit b s x y := by
  rw [should_move_stick_iff, wrapInt32_add_wrap] at h
  obtain ⟨h0, h1, h2⟩ := h
  have bx := sq_le_of_bounds x hx1 hx2
  have by_ := sq_le_of_bounds y hy1 hy2
  have e : wrapInt32 (x * x + y * y) = x * x + y * y := by
    obtain ⟨a0, a1⟩ := bx
    obtain ⟨c0, c1⟩ := by_
    generalize x * x = a at h0 a0 a1 ⊢
    generalize y * y = c at h0 c0 c1 ⊢
    unfold wrapInt32 at h0 ⊢
    omega
  rw [e] at h2
  rw [within_limit_iff]
  exact ⟨h1, h2⟩

/-! ## The handlers on candidates inside and outside the `int32_t` range -/

theorem should_move_stick_eq_decide (b s : Nat) (x y : Int) :
    should_move_stick b s x y =
      decide (0 ≤ wrapInt32 (wrapInt32 (x * x) + wrapInt32 (y * y)) ∧ 6 * (s : Int) < 5 * b ∧
        25 * wrapInt32 (wrapInt32 (x * x) + wrapInt32 (y * y)) < (5 * (b : Int) - 6 * s) ^ 2) := by
  rw [Bool.eq_iff_iff, should_move_stick_iff, decide_eq_true_iff]

theorem within_limit_center (b s : Nat) (h : 6 * s < 5 * b) : within_limit b s 0 0 := by
  rw [within_limit_iff]
  have h' : 6 * (s : Int) < 5 * b := by exact_mod_cast h
  refine ⟨h', ?_⟩
  have : (0 : Int) < 5 * (b : Int) - 6 * s := by linarith
  positivity

theorem accepts_eq (data : joystick_data_t) (vect : lv_point_t) (stick_obj : lv_obj_t) :
    accepts data vect stick_obj =
      should_move_stick data.base_radius data.stick_radius
        (wrapInt32 (stick_obj.x + vect.x)) (wrapInt32 (stick_obj.y + vect.y)) := rfl

/-- A rejected press-move changes nothing and reports nothing. -/
theorem pressing_rejected (data : joystick_data_t) (vect : lv_point_t) (stick_obj : lv_obj_t)
    (h : accepts data vect stick_obj = false) :
    joystick_handle_pressing data (some vect) stick_obj = (stick_obj, []) := by
  rw [accepts_eq] at h
  simp [joystick_handle_pressing, lv_obj_get_x_aligned, lv_obj_get_y_aligned, h]

/-- An accepted press-move puts the handle on the candidate. -/
theorem pressing_accepted_pos (data : joystick_data_t) (vect : lv_point_t)
    (stick_obj : lv_obj_t) (h : accepts data vect stick_obj = true) :
    (joystick_handle_pressing data (some vect) stick_obj).1 =
      lv_obj_set_pos stick_obj (wrapInt32 (stick_obj.x + vect.x))
        (wrapInt32 (stick_obj.y + vect.y)) := by
  rw [accepts_eq] at h
  simp only [joystick_handle_pressing, lv_obj_get_x_aligned, lv_obj_get_y_aligned, h]
  cases data.position_callback <;> cases data.report_mode <;> simp

/-- The calls of an accepted press-move. -/
theorem pressing_accepted_calls (data : joystick_data_t) (vect : lv_point_t)
    (stick_obj : lv_obj_t) (h : accepts data vect stick_obj = true) :
    (joystick_handle_pressing data (some vect) stick_obj).2 =
      match data.position_callback, data.report_mode with
      | none, _ => []
      | some cb, JOYSTICK_REPORT_MODE_ABSOLUTE =>
        [⟨cb, data.joystick_id, wrapInt16 (wrapInt32 (stick_obj.x + vect.x)),
          wrapInt16 (wrapInt32 (stick_obj.y + vect.y))⟩]
      | some cb, JOYSTICK_REPORT_MODE_RELATIVE =>
        [⟨cb, data.joystick_id, wrapInt16 vect.x, wrapInt16 vect.y⟩] := by
  rw [accepts_eq] at h
  simp only [joystick_handle_pressing, lv_obj_get_x_aligned, lv_obj_get_y_aligned, h]
  rcases hc : data.position_callback with _ | cb <;> rcases hm : data.report_mode <;>
    simp [joystick_trigger_callback, hc]

/-! ## C1: the admissibility test -/

/-- C1, evaluated where the code departs from it. Radii 50 and 10, handle at the centre,
pointer delta (65536, 0): `x * x` is 2^32 and wraps to 0 in `int32_t`, so the test passes
and the handle is moved to (65536, 0), although this candidate's distance from the
centre, 65536, is not below 50 - 1.2 * 10 = 38. -/
theorem pressing_moves_beyond_limit :
    should_move_stick 50 10 65536 0 = true ∧
    (joystick_handle_pressing ⟨7, 50, 10, JOYSTICK_REPORT_MODE_ABSOLUTE, none⟩
        (some ⟨65536, 0⟩)
        ⟨0, 0, user_data_t.live ⟨7, 50, 10, JOYSTICK_REPORT_MODE_ABSOLUTE, none⟩⟩).1
      = ⟨65536, 0, user_data_t.live ⟨7, 50, 10, JOYSTICK_REPORT_MODE_ABSOLUTE, none⟩⟩ ∧
    ¬ within_limit 50 10 65536 0 := by
  refine ⟨?_, ?_, ?_⟩
  · rw [should_move_stick_eq_decide]; decide
  · simp [joystick_handle_pressing, should_move_stick_eq_decide, lv_obj_get_x_aligned,
      lv_obj_get_y_aligned, lv_obj_set_pos]
    decide
  · rw [within_limit_iff]; decide

/-! ## C2: containment along event sequences -/

/-- C2 as stated fails: radii 10 and 9 satisfy `0 < stick_radius < base_radius`, the
press-move with delta (1, 0) from the centre is rejected, and the position the handle
holds after it, (0, 0), has distance 0, which is not below 10 - 1.2 * 9 = -0.8. -/
theorem containment_fails_for_radii_10_9 :
    (0 < 9 ∧ 9 < 10) ∧
    run (⟨0, 0, user_data_t.live ⟨7, 10, 9, JOYSTICK_REPORT_MODE_ABSOLUTE, some 1⟩⟩, [])
        [press_move 1 0]
      = some (⟨0, 0, user_data_t.live ⟨7, 10, 9, JOYSTICK_REPORT_MODE_ABSOLUTE, some 1⟩⟩, []) ∧
    ¬ within_limit 10 9 0 0 := by
  refine ⟨by decide, ?_, ?_⟩
  · simp [run, press_move, joystic_event_handler, joystick_handle_pressing,
      should_move_stick_eq_decide, lv_obj_get_x_aligned, lv_obj_get_y_aligned]
  · rw [within_limit_iff]; decide

theorem handler_keeps_containment (d : joystick_data_t) (hv : d.valid)
    (hr : 6 * d.stick_radius < 5 * d.base_radius) (e : lv_event_t) (he : bounded_drag e)
    (x y : Int) (hin : within_limit d.base_radius d.stick_radius x y) :
    ∃ x' y' calls,
      joystic_event_handler e.code e.indev ⟨x, y, user_data_t.live d⟩ =
        some (⟨x', y', user_data_t.live d⟩, calls) ∧
      within_limit d.base_radius d.stick_radius x' y' := by
  obtain ⟨hcode, hvec⟩ := he
  rcases hcode with hc | hc
  · -- press-move
    rcases hi : e.indev with _ | v
    · exact ⟨x, y, [], by simp [joystic_event_handler, hc, joystick_handle_pressing], hin⟩
    · obtain ⟨⟨vx1, vx2⟩, ⟨vy1, vy2⟩⟩ := hvec v hi
      obtain ⟨-, px1, px2, py1, py2⟩ := within_limit_bound _ _ x y hv.2.1 hin
      have ex : wrapInt32 (x + v.x) = x + v.x :=
        wrapInt32_of_range _ (by linarith) (by linarith)
      have ey : wrapInt32 (y + v.y) = y + v.y :=
        wrapInt32_of_range _ (by linarith) (by linarith)
      rcases hacc : accepts d v ⟨x, y, user_data_t.live d⟩ with _ | _
      · exact ⟨x, y, [], by simp [joystic_event_handler, hc, pressing_rejected _ _ _ hacc], hin⟩
      · refine ⟨x + v.x, y + v.y,
          (joystick_handle_pressing d (some v) ⟨x, y, user_data_t.live d⟩).2, ?_, ?_⟩
        · have hp := pressing_accepted_pos _ _ _ hacc
          simp only [ex, ey, lv_obj_set_pos] at hp
          simp only [joystic_event_handler, hc]
          rw [← hp]
        · rw [accepts_eq] at hacc
          simp only [ex, ey] at hacc
          exact within_limit_of_should_move_stick _ _ _ _ (by linarith) (by linarith)
            (by linarith) (by linarith) hacc
  · -- release
    refine ⟨0, 0, (joystick_handle_release d ⟨x, y, user_data_t.live d⟩).2, ?_,
      within_limit_center _ _ hr⟩
    simp only [joystic_event_handler, hc, joystick_handle_release, lv_obj_set_pos]
    split <;> rfl

theorem run_keeps_containment (d : joystick_data_t) (hv : d.valid)
    (hr : 6 * d.stick_radius < 5 * d.base_radius) (es : List lv_event_t) :
    ∀ (x y : Int) (calls : List callback_call), (∀ e ∈ es, bounded_drag e) →
      within_limit d.base_radius d.stick_radius x y →
      ∃ x' y' calls',
        run (⟨x, y, user_data_t.live d⟩, calls) es =
          some (⟨x', y', user_data_t.live d⟩, calls') ∧
        within_limit d.base_radius d.stick_radius x' y' := by
  induction es with
  | nil => intro x y calls _ hin; exact ⟨x, y, calls, rfl, hin⟩
  | cons e es ih =>
    intro x y calls hes hin
    obtain ⟨x1, y1, c1, h1, hin1⟩ :=
      handler_keeps_containment d hv hr e (hes e (List.mem_cons_self _ _)) x y hin
    obtain ⟨x2, y2, c2, h2, hin2⟩ :=
      ih x1 y1 (calls ++ c1) (fun e' he' => hes e' (List.mem_cons_of_mem _ he')) hin1
    exact ⟨x2, y2, c2, by simp only [run, h1]; exact h2, hin2⟩

/-- C2, amended. For an instance with 8-bit radii and `6 * stick_radius < 5 * base_radius`
(the limit `base_radius - 1.2 * stick_radius` is positive), with the handle at the centre,
every finite sequence of press-move and release events whose pointer deltas are at most
46086 on each axis is processed, and after each of its events (after its first `k`
events, for every `k`) the position the handle holds is within the limit: its distance
from the centre is below `base_radius - 1.2 * stick_radius`. -/
theorem containment_invariant (d : joystick_data_t) (es : List lv_event_t)
    (hv : d.valid) (hr : 6 * d.stick_radius < 5 * d.base_radius)
    (hes : ∀ e ∈ es, bounded_drag e) (k : Nat) :
    ∃ x y calls,
      run (⟨0, 0, user_data_t.live d⟩, []) (es.take k) =
        some (⟨x, y, user_data_t.live d⟩, calls) ∧
      within_limit d.base_radius d.stick_radius x y :=
  run_keeps_containment d hv hr (es.take k) 0 0 []
    (fun e he => hes e (List.mem_of_mem_take he)) (within_limit_center _ _ hr)

/-- Witness for C2, amended: radii 50 and 10, an accepted move, a rejected move, a
release and another accepted move, at the end of the sequence. -/
theorem containment_invariant_witness :
    (⟨7, 50, 10, JOYSTICK_REPORT_MODE_ABSOLUTE, some 1⟩ : joystick_data_t).valid ∧
    6 * 10 < 5 * 50 ∧
    (∀ e ∈ [press_move 5 0, press_move 100 0, release, press_move 3 (-2)], bounded_drag e) ∧
    ∃ x y calls,
      run (⟨0, 0, user_data_t.live ⟨7, 50, 10, JOYSTICK_REPORT_MODE_ABSOLUTE, some 1⟩⟩, [])
          ([press_move 5 0, press_move 100 0, release, press_move 3 (-2)].take 4)
        = some (⟨x, y, user_data_t.live ⟨7, 50, 10, JOYSTICK_REPORT_MODE_ABSOLUTE, some 1⟩⟩,
            calls) ∧
      within_limit 50 10 x y :=
  ⟨by decide, by decide, by simp [bounded_drag, press_move, release],
    containment_invariant ⟨7, 50, 10, JOYSTICK_REPORT_MODE_ABSOLUTE, some 1⟩
      [press_move 5 0, press_move 100 0, release, press_move 3 (-2)]
      (by decide) (by decide) (by simp [bounded_drag, press_move, release]) 4⟩

/-! ## C3: rejected candidates -/

/-- C3, evaluated where the code departs from it. Radii 50 and 10, handle at the centre,
pointer delta (0, -65536): the candidate is not admissible (its distance 65536 is not
below 38), yet `y * y` wraps to 0 in `int32_t`, the handle is moved to (0, -65536) and the
callback is invoked, in ABSOLUTE mode (with the position cut to `int16_t`, (0, 0)) and in
RELATIVE mode alike. The specification's own rejected move, delta (100, 0), is rejected. -/
theorem inadmissible_candidate_moves_and_reports :
    ¬ within_limit 50 10 (0 + 0) (0 + -65536) ∧
    joystick_handle_pressing ⟨7, 50, 10, JOYSTICK_REPORT_MODE_ABSOLUTE, some 1⟩
        (some ⟨0, -65536⟩) ⟨0, 0, user_data_t.null⟩
      = (⟨0, -65536, user_data_t.null⟩, [⟨1, 7, 0, 0⟩]) ∧
    joystick_handle_pressing ⟨7, 50, 10, JOYSTICK_REPORT_MODE_RELATIVE, some 1⟩
        (some ⟨0, -65536⟩) ⟨0, 0, user_data_t.null⟩
      = (⟨0, -65536, user_data_t.null⟩, [⟨1, 7, 0, 0⟩]) ∧
    joystick_handle_pressing ⟨7, 50, 10, JOYSTICK_REPORT_MODE_ABSOLUTE, some 1⟩
        (some ⟨100, 0⟩) ⟨0, 0, user_data_t.null⟩
      = (⟨0, 0, user_data_t.null⟩, []) := by
  refine ⟨?_, ?_, ?_, ?_⟩
  · rw [within_limit_iff]; decide
  · simp [joystick_handle_pressing, should_move_stick_eq_decide, lv_obj_get_x_aligned,
      lv_obj_get_y_aligned, lv_obj_set_pos, joystick_trigger_callback]
    decide
  · simp [joystick_handle_pressing, should_move_stick_eq_decide, lv_obj_get_x_aligned,
      lv_obj_get_y_aligned, lv_obj_set_pos, joystick_trigger_callback]
    decide
  · simp [joystick_handle_pressing, should_move_stick_eq_decide, lv_obj_get_x_aligned,
      lv_obj_get_y_aligned, lv_obj_set_pos, joystick_trigger_callback]
    decide

/-! ## C4: reports in ABSOLUTE mode -/

/-- C4, evaluated where the code departs from it. ABSOLUTE mode, radii 50 and 10, handle
at the centre, pointer delta (65536, 3): the move is accepted (`x * x` wraps to 0 in
`int32_t`), the handle is put on (65536, 3), and the callback receives (7, 0, 3): the
`int16_t` parameter does not hold 65536. The specification's scenario A, delta (5, 0),
reports (7, 5, 0). -/
theorem absolute_report_differs_from_position :
    joystick_handle_pressing ⟨7, 50, 10, JOYSTICK_REPORT_MODE_ABSOLUTE, some 1⟩
        (some ⟨65536, 3⟩) ⟨0, 0, user_data_t.null⟩
      = (⟨65536, 3, user_data_t.null⟩, [⟨1, 7, 0, 3⟩]) ∧
    joystick_handle_pressing ⟨7, 50, 10, JOYSTICK_REPORT_MODE_ABSOLUTE, some 1⟩
        (some ⟨5, 0⟩) ⟨0, 0, user_data_t.null⟩
      = (⟨5, 0, user_data_t.null⟩, [⟨1, 7, 5, 0⟩]) := by
  refine ⟨?_, ?_⟩
  · simp [joystick_handle_pressing, should_move_stick_eq_decide, lv_obj_get_x_aligned,
      lv_obj_get_y_aligned, lv_obj_set_pos, joystick_trigger_callback]
    decide
  · simp [joystick_handle_pressing, should_move_stick_eq_decide, lv_obj_get_x_aligned,
      lv_obj_get_y_aligned, lv_obj_set_pos, joystick_trigger_callback]
    decide

/-! ## C5: reports in RELATIVE mode -/

/-- C5, evaluated where the code departs from it. RELATIVE mode, radii 50 and 10, a
registered callback, the handle at the centre, pointer delta (65536, -2): the move is
accepted (`x * x` wraps to 0 in `int32_t`, the radicand is 4), the handle is put on
(65536, -2), and the callback receives (7, 0, -2) through its `int16_t` parameters, not
the raw delta (65536, -2). From the position so reached, the delta (-65533, 0) is
accepted and reported as (7, 3, 0). The specification's scenario C, delta (3, -2), is
reported as (7, 3, -2). -/
theorem relative_report_differs_from_raw_delta :
    joystick_handle_pressing ⟨7, 50, 10, JOYSTICK_REPORT_MODE_RELATIVE, some 1⟩
        (some ⟨65536, -2⟩) ⟨0, 0, user_data_t.null⟩
      = (⟨65536, -2, user_data_t.null⟩, [⟨1, 7, 0, -2⟩]) ∧
    run (⟨0, 0, user_data_t.live ⟨7, 50, 10, JOYSTICK_REPORT_MODE_RELATIVE, some 1⟩⟩, [])
        [press_move 65536 (-2), press_move (-65533) 0]
      = some (⟨3, -2, user_data_t.live ⟨7, 50, 10, JOYSTICK_REPORT_MODE_RELATIVE, some 1⟩⟩,
          [⟨1, 7, 0, -2⟩, ⟨1, 7, 3, 0⟩]) ∧
    joystick_handle_pressing ⟨7, 50, 10, JOYSTICK_REPORT_MODE_RELATIVE, some 1⟩
        (some ⟨3, -2⟩) ⟨0, 0, user_data_t.null⟩
      = (⟨3, -2, user_data_t.null⟩, [⟨1, 7, 3, -2⟩]) := by
  refine ⟨?_, ?_, ?_⟩
  · simp [joystick_handle_pressing, should_move_stick_eq_decide, lv_obj_get_x_aligned,
      lv_obj_get_y_aligned, lv_obj_set_pos, joystick_trigger_callback]
    decide
  · simp [run, press_move, joystic_event_handler, joystick_handle_pressing,
      should_move_stick_eq_decide, lv_obj_get_x_aligned, lv_obj_get_y_aligned,
      lv_obj_set_pos, joystick_trigger_callback]
    decide
  · simp [joystick_handle_pressing, should_move_stick_eq_decide, lv_obj_get_x_aligned,
      lv_obj_get_y_aligned, lv_obj_set_pos, joystick_trigger_callback]
    decide

/-- An accepted press-move in RELATIVE mode with a registered callback invokes the
callback exactly once, with the pointer delta of the event in `int16_t`. -/
theorem relative_report_is_delta (data : joystick_data_t) (vect : lv_point_t)
    (stick_obj : lv_obj_t) (cb : Nat)
    (hm : data.report_mode = JOYSTICK_REPORT_MODE_RELATIVE)
    (hc : data.position_callback = some cb)
    (hacc : accepts data vect stick_obj = true) :
    (joystick_handle_pressing data (some vect) stick_obj).2 =
      [⟨cb, data.joystick_id, wrapInt16 vect.x, wrapInt16 vect.y⟩] := by
  have h := pressing_accepted_calls data vect stick_obj hacc
  rw [hc, hm] at h
  exact h

/-! ## C6: release -/

/-- C6. For every instance and every position of the handle, a release event puts the
handle on (0, 0); in ABSOLUTE mode with a registered callback the callback is invoked
exactly once, with (joystick_id, 0, 0); in RELATIVE mode, and without a callback, no
callback is invoked. The same holds for the release event dispatched by
`joystic_event_handler`. -/
theorem release_resets_and_reports (data : joystick_data_t) (x y : Int) (u : user_data_t)
    (indev : Option lv_point_t) :
    joystick_handle_release data ⟨x, y, u⟩ =
      (⟨0, 0, u⟩,
        match data.report_mode, data.position_callback with
        | JOYSTICK_REPORT_MODE_ABSOLUTE, some cb => [⟨cb, data.joystick_id, 0, 0⟩]
        | JOYSTICK_REPORT_MODE_ABSOLUTE, none => []
        | JOYSTICK_REPORT_MODE_RELATIVE, _ => []) ∧
    joystic_event_handler LV_EVENT_RELEASED indev ⟨x, y, user_data_t.live data⟩ =
      some (⟨0, 0, user_data_t.live data⟩,
        match data.report_mode, data.position_callback with
        | JOYSTICK_REPORT_MODE_ABSOLUTE, some cb => [⟨cb, data.joystick_id, 0, 0⟩]
        | JOYSTICK_REPORT_MODE_ABSOLUTE, none => []
        | JOYSTICK_REPORT_MODE_RELATIVE, _ => []) := by
  constructor <;>
  rcases hm : data.report_mode <;> rcases hc : data.position_callback with _ | cb <;>
    simp [joystic_event_handler, joystick_handle_release, joystick_trigger_callback,
      lv_obj_set_pos, hm, hc, wrapInt16]

/-! ## C7: no registered callback -/

/-- An admissible candidate is accepted, and is the sum of position and delta. -/
theorem accepts_of_within_limit (data : joystick_data_t) (vect : lv_point_t)
    (stick_obj : lv_obj_t) (hv : data.valid)
    (h : within_limit data.base_radius data.stick_radius
      (stick_obj.x + vect.x) (stick_obj.y + vect.y)) :
    accepts data vect stick_obj = true ∧
    wrapInt32 (stick_obj.x + vect.x) = stick_obj.x + vect.x ∧
    wrapInt32 (stick_obj.y + vect.y) = stick_obj.y + vect.y := by
  obtain ⟨-, x1, x2, y1, y2⟩ := within_limit_bound _ _ _ _ hv.2.1 h
  have ex := wrapInt32_of_range (stick_obj.x + vect.x) (by linarith) (by linarith)
  have ey := wrapInt32_of_range (stick_obj.y + vect.y) (by linarith) (by linarith)
  refine ⟨?_, ex, ey⟩
  rw [accepts_eq, ex, ey]
  exact should_move_stick_of_within_limit _ _ _ _ hv.2.1 h

/-- C7. For an instance without a registered callback (the pointer is null), in either
report mode: an admissible press-move puts the handle on the candidate, current position
plus delta, as it does for the same instance with any callback registered; a release puts
it on (0, 0), as it does with a callback registered; and no event, whatever its code, the
input device and the position, invokes a callback. -/
theorem no_callback_moves_without_report (data : joystick_data_t) (vect : lv_point_t)
    (stick_obj : lv_obj_t) (hv : data.valid) (hc : data.position_callback = none)
    (hadm : within_limit data.base_radius data.stick_radius
      (stick_obj.x + vect.x) (stick_obj.y + vect.y)) :
    joystick_handle_pressing data (some vect) stick_obj =
      (lv_obj_set_pos stick_obj (stick_obj.x + vect.x) (stick_obj.y + vect.y), []) ∧
    (∀ cb, (joystick_handle_pressing { data with position_callback := some cb }
        (some vect) stick_obj).1 =
      lv_obj_set_pos stick_obj (stick_obj.x + vect.x) (stick_obj.y + vect.y)) ∧
    joystick_handle_release data stick_obj = (lv_obj_set_pos stick_obj 0 0, []) ∧
    (∀ cb, (joystick_handle_release { data with position_callback := some cb }
        stick_obj).1 = lv_obj_set_pos stick_obj 0 0) ∧
    (∀ code indev x y, ∃ obj,
      joystic_event_handler code indev ⟨x, y, user_data_t.live data⟩ = some (obj, [])) := by
  obtain ⟨hacc, ex, ey⟩ := accepts_of_within_limit data vect stick_obj hv hadm
  refine ⟨?_, ?_, ?_, ?_, ?_⟩
  · have hp := pressing_accepted_pos data vect stick_obj hacc
    have hcalls := pressing_accepted_calls data vect stick_obj hacc
    rw [hc] at hcalls
    rw [ex, ey] at hp
    exact Prod.ext hp hcalls
  · intro cb
    have hacc' : accepts { data with position_callback := some cb } vect stick_obj = true :=
      hacc
    have hp := pressing_accepted_pos _ vect stick_obj hacc'
    rw [ex, ey] at hp
    exact hp
  · simp only [joystick_handle_release, joystick_trigger_callback, hc]
    split <;> rfl
  · intro cb
    simp only [joystick_handle_release]
    split <;> rfl
  · intro code indev x y
    cases code
    · rcases indev with _ | v
      · exact ⟨⟨x, y, user_data_t.live data⟩, by
          simp [joystic_event_handler, joystick_handle_pressing]⟩
      · rcases h : accepts data v ⟨x, y, user_data_t.live data⟩ with _ | _
        · exact ⟨⟨x, y, user_data_t.live data⟩, by
            simp [joystic_event_handler, pressing_rejected _ _ _ h]⟩
        · have hcalls := pressing_accepted_calls data v _ h
          rw [hc] at hcalls
          exact ⟨(joystick_handle_pressing data (some v) ⟨x, y, user_data_t.live data⟩).1,
            congrArg some (Prod.ext rfl hcalls)⟩
    · refine ⟨lv_obj_set_pos ⟨x, y, user_data_t.live data⟩ 0 0, ?_⟩
      simp only [joystic_event_handler, joystick_handle_release, joystick_trigger_callback,
        hc]
      split <;> rfl
    · exact ⟨_, rfl⟩
    · exact ⟨_, rfl⟩

/-- Witness for C7: radii 50 and 10, RELATIVE mode, no callback, the handle on (5, 5) and
the delta (3, -2). -/
theorem no_callback_moves_without_report_witness :
    (⟨7, 50, 10, JOYSTICK_REPORT_MODE_RELATIVE, none⟩ : joystick_data_t).valid ∧
    within_limit 50 10 (5 + 3) (5 + -2) ∧
    joystick_handle_pressing ⟨7, 50, 10, JOYSTICK_REPORT_MODE_RELATIVE, none⟩
        (some ⟨3, -2⟩) ⟨5, 5, user_data_t.null⟩
      = (lv_obj_set_pos ⟨5, 5, user_data_t.null⟩ (5 + 3) (5 + -2), []) :=
  have hadm : within_limit 50 10 (5 + 3) (5 + -2) := by rw [within_limit_iff]; decide
  ⟨by decide, hadm,
    (no_callback_moves_without_report ⟨7, 50, 10, JOYSTICK_REPORT_MODE_RELATIVE, none⟩
      ⟨3, -2⟩ ⟨5, 5, user_data_t.null⟩ (by decide) rfl hadm).1⟩

/-! ## C8: creation -/

/-- The record `create_joystick` attaches holds the id, the callback and the report mode
passed in, and the radii passed in when these are within 0 .. 255. -/
theorem create_joystick_stores_8bit_radii (joystick_id : Nat) (base_radius stick_radius : Int)
    (position_callback : Option Nat) (report_mode : joystick_report_mode_t)
    (hb : 0 ≤ base_radius ∧ base_radius < 256) (hs : 0 ≤ stick_radius ∧ stick_radius < 256) :
    ∃ w, create_joystick true joystick_id base_radius stick_radius position_callback
        report_mode = some w ∧
      w.stick_obj = ⟨0, 0, user_data_t.live ⟨joystick_id, base_radius.toNat,
        stick_radius.toNat, report_mode, position_callback⟩⟩ := by
  refine ⟨_, rfl, ?_⟩
  have e1 : wrapUInt8 base_radius = base_radius.toNat := by unfold wrapUInt8; omega
  have e2 : wrapUInt8 stick_radius = stick_radius.toNat := by unfold wrapUInt8; omega
  simp [e1, e2]

/-- C8, evaluated where the code departs from it. `create_joystick` with the radii 300
and 10 sizes the base widget from the radius 300 (width 600), but the record attached to
the handle holds `base_radius = 44`: the `int` argument is stored in a `uint8_t` field.
The id, the stick radius, the callback and the report mode are stored as passed. -/
theorem create_joystick_stores_radius_mod_256 :
    create_joystick true 7 300 10 (some 1) JOYSTICK_REPORT_MODE_RELATIVE =
      some ⟨600, 20,
        ⟨0, 0, user_data_t.live ⟨7, 44, 10, JOYSTICK_REPORT_MODE_RELATIVE, some 1⟩⟩⟩ := by
  decide

/-! ## C9: events after destroy -/

/-- C10. For an instance with a registered callback, whatever its id and radii:
(a) in RELATIVE mode, two accepted press-moves with the same pointer delta, from any two
positions of the handle, each invoke the callback exactly once and pass it the same
(x, y), the delta in `int16_t`; (b) in ABSOLUTE mode, two accepted press-moves with any
deltas from any positions that give the same candidate each invoke the callback exactly
once and pass it the same (x, y), the candidate in `int16_t`. -/
theorem mode_independence (jid b s cb : Nat) (vect : lv_point_t) (obj₁ obj₂ : lv_obj_t)
    (vect₁ vect₂ : lv_point_t) (pos₁ pos₂ : lv_obj_t)
    (hrel₁ : accepts ⟨jid, b, s, JOYSTICK_REPORT_MODE_RELATIVE, some cb⟩ vect obj₁ = true)
    (hrel₂ : accepts ⟨jid, b, s, JOYSTICK_REPORT_MODE_RELATIVE, some cb⟩ vect obj₂ = true)
    (habs₁ : accepts ⟨jid, b, s, JOYSTICK_REPORT_MODE_ABSOLUTE, some cb⟩ vect₁ pos₁ = true)
    (habs₂ : accepts ⟨jid, b, s, JOYSTICK_REPORT_MODE_ABSOLUTE, some cb⟩ vect₂ pos₂ = true)
    (hx : pos₁.x + vect₁.x = pos₂.x + vect₂.x) (hy : pos₁.y + vect₁.y = pos₂.y + vect₂.y) :
    ((joystick_handle_pressing ⟨jid, b, s, JOYSTICK_REPORT_MODE_RELATIVE, some cb⟩
          (some vect) obj₁).2 = [⟨cb, jid, wrapInt16 vect.x, wrapInt16 vect.y⟩] ∧
      (joystick_handle_pressing ⟨jid, b, s, JOYSTICK_REPORT_MODE_RELATIVE, some cb⟩
          (some vect) obj₂).2 = [⟨cb, jid, wrapInt16 vect.x, wrapInt16 vect.y⟩]) ∧
    ((joystick_handle_pressing ⟨jid, b, s, JOYSTICK_REPORT_MODE_ABSOLUTE, some cb⟩
          (some vect₁) pos₁).2 =
        [⟨cb, jid, wrapInt16 (wrapInt32 (pos₁.x + vect₁.x)),
          wrapInt16 (wrapInt32 (pos₁.y + vect₁.y))⟩] ∧
      (joystick_handle_pressing ⟨jid, b, s, JOYSTICK_REPORT_MODE_ABSOLUTE, some cb⟩
          (some vect₂) pos₂).2 =
        [⟨cb, jid, wrapInt16 (wrapInt32 (pos₁.x + vect₁.x)),
          wrapInt16 (wrapInt32 (pos₁.y + vect₁.y))⟩]) := by
  have r₁ := pressing_accepted_calls _ vect obj₁ hrel₁
  have r₂ := pressing_accepted_calls _ vect obj₂ hrel₂
  have a₁ := pressing_accepted_calls _ vect₁ pos₁ habs₁
  have a₂ := pressing_accepted_calls _ vect₂ pos₂ habs₂
  rw [hx, hy]
  exact ⟨⟨r₁, r₂⟩, ⟨by rw [← hx, ← hy]; exact a₁, a₂⟩⟩

/-- Witness for C10: radii 50 and 10; in RELATIVE mode the delta (3, -2)
from (0, 0) and from (20, 10); in ABSOLUTE mode the candidate (8, 3), reached from (5, 5)
by (3, -2) and from (0, 0) by (8, 3). -/
theorem mode_independence_witness :
    ((joystick_handle_pressing ⟨7, 50, 10, JOYSTICK_REPORT_MODE_RELATIVE, some 1⟩
          (some ⟨3, -2⟩) ⟨0, 0, user_data_t.null⟩).2 =
        [⟨1, 7, 3, -2⟩] ∧
      (joystick_handle_pressing ⟨7, 50, 10, JOYSTICK_REPORT_MODE_RELATIVE, some 1⟩
          (some ⟨3, -2⟩) ⟨20, 10, user_data_t.null⟩).2 =
        [⟨1, 7, 3, -2⟩]) ∧
    ((joystick_handle_pressing ⟨7, 50, 10, JOYSTICK_REPORT_MODE_ABSOLUTE, some 1⟩
          (some ⟨3, -2⟩) ⟨5, 5, user_data_t.null⟩).2 =
        [⟨1, 7, 8, 3⟩] ∧
      (joystick_handle_pressing ⟨7, 50, 10, JOYSTICK_REPORT_MODE_ABSOLUTE, some 1⟩
          (some ⟨8, 3⟩) ⟨0, 0, user_data_t.null⟩).2 =
        [⟨1, 7, 8, 3⟩]) :=
  mode_independence 7 50 10 1 ⟨3, -2⟩ ⟨0, 0, user_data_t.null⟩ ⟨20, 10, user_data_t.null⟩
    ⟨3, -2⟩ ⟨8, 3⟩ ⟨5, 5, user_data_t.null⟩ ⟨0, 0, user_data_t.null⟩
    (by rw [accepts_eq, should_move_stick_eq_decide]; decide)
    (by rw [accepts_eq, should_move_stick_eq_decide]; decide)
    (by rw [accepts_eq, should_move_stick_eq_decide]; decide)
    (by rw [accepts_eq, should_move_stick_eq_decide]; decide)
    (by decide) (by decide)

/-! ## The handlers away from the `int32_t` overflow -/

/-- On a candidate within 46340 of the centre on each axis, the test of
`joystick_handle_pressing` is the specification's admissibility test. -/
theorem accepts_iff_within_limit (data : joystick_data_t) (vect : lv_point_t)
    (stick_obj : lv_obj_t) (hv : data.valid)
    (hx : -46340 ≤ stick_obj.x + vect.x ∧ stick_obj.x + vect.x ≤ 46340)
    (hy : -46340 ≤ stick_obj.y + vect.y ∧ stick_obj.y + vect.y ≤ 46340) :
    accepts data vect stick_obj = true ↔
      within_limit data.base_radius data.stick_radius
        (stick_obj.x + vect.x) (stick_obj.y + vect.y) := by
  constructor
  · intro h
    rw [accepts_eq, wrapInt32_of_range _ (by linarith [hx.1]) (by linarith [hx.2]),
      wrapInt32_of_range _ (by linarith [hy.1]) (by linarith [hy.2])] at h
    exact within_limit_of_should_move_stick _ _ _ _ hx.1 hx.2 hy.1 hy.2 h
  · intro h
    exact (accepts_of_within_limit data vect stick_obj hv h).1

/-- An admissible press-move in ABSOLUTE mode with a registered callback puts the handle
on the candidate and reports exactly that position. -/
theorem absolute_report_of_within_limit (data : joystick_data_t) (vect : lv_point_t)
    (stick_obj : lv_obj_t) (cb : Nat) (hv : data.valid)
    (hm : data.report_mode = JOYSTICK_REPORT_MODE_ABSOLUTE)
    (hc : data.position_callback = some cb)
    (h : within_limit data.base_radius data.stick_radius
      (stick_obj.x + vect.x) (stick_obj.y + vect.y)) :
    joystick_handle_pressing data (some vect) stick_obj =
      (lv_obj_set_pos stick_obj (stick_obj.x + vect.x) (stick_obj.y + vect.y),
        [⟨cb, data.joystick_id, stick_obj.x + vect.x, stick_obj.y + vect.y⟩]) := by
  obtain ⟨hacc, ex, ey⟩ := accepts_of_within_limit data vect stick_obj hv h
  obtain ⟨-, x1, x2, y1, y2⟩ := within_limit_bound _ _ _ _ hv.2.1 h
  have hp := pressing_accepted_pos data vect stick_obj hacc
  have hcalls := pressing_accepted_calls data vect stick_obj hacc
  rw [hc, hm] at hcalls
  rw [ex, ey] at hp hcalls
  rw [wrapInt16_of_range _ (by linarith) (by linarith),
    wrapInt16_of_range _ (by linarith) (by linarith)] at hcalls
  exact Prod.ext hp hcalls

/-- An admissible press-move in RELATIVE mode with a registered callback, from a position
within 254 of the centre on each axis (as every position reached without overflow is),
puts the handle on the candidate and reports exactly the raw pointer delta. -/
theorem relative_report_of_within_limit (data : joystick_data_t) (vect : lv_point_t)
    (stick_obj : lv_obj_t) (cb : Nat) (hv : data.valid)
    (hm : data.report_mode = JOYSTICK_REPORT_MODE_RELATIVE)
    (hc : data.position_callback = some cb)
    (hx : -254 ≤ stick_obj.x ∧ stick_obj.x ≤ 254) (hy : -254 ≤ stick_obj.y ∧ stick_obj.y ≤ 254)
    (h : within_limit data.base_radius data.stick_radius
      (stick_obj.x + vect.x) (stick_obj.y + vect.y)) :
    joystick_handle_pressing data (some vect) stick_obj =
      (lv_obj_set_pos stick_obj (stick_obj.x + vect.x) (stick_obj.y + vect.y),
        [⟨cb, data.joystick_id, vect.x, vect.y⟩]) := by
  obtain ⟨hacc, ex, ey⟩ := accepts_of_within_limit data vect stick_obj hv h
  obtain ⟨-, x1, x2, y1, y2⟩ := within_limit_bound _ _ _ _ hv.2.1 h
  have hp := pressing_accepted_pos data vect stick_obj hacc
  have hcalls := relative_report_is_delta data vect stick_obj cb hm hc hacc
  rw [ex, ey] at hp
  rw [wrapInt16_of_range _ (by linarith [hx.2]) (by linarith [hx.1]),
    wrapInt16_of_range _ (by linarith [hy.2]) (by linarith [hy.1])] at hcalls
  exact Prod.ext hp hcalls

/-! ## C11: no instance data -/

/-- C11. When the user-data slot of the handle is null, an event of any code, with any
input device state and any position of the handle, leaves the handle as it is and invokes
no callback; hence so does every sequence of events. -/
theorem no_instance_data_is_noop (code : lv_event_code_t) (indev : Option lv_point_t)
    (x y : Int) (es : List lv_event_t) (calls : List callback_call) :
    joystic_event_handler code indev ⟨x, y, user_data_t.null⟩ =
      some (⟨x, y, user_data_t.null⟩, []) ∧
    run (⟨x, y, user_data_t.null⟩, calls) es = some (⟨x, y, user_data_t.null⟩, calls) := by
  refine ⟨rfl, ?_⟩
  induction es with
  | nil => rfl
  | cons e es ih => simpa [run, joystic_event_handler] using ih

/-! ## C12: limit not positive -/

theorem should_move_stick_false_of_limit (b s : Nat) (x y : Int) (h : 5 * b ≤ 6 * s) :
    should_move_stick b s x y = false := by
  rw [Bool.eq_false_iff]
  intro hacc
  rw [should_move_stick_iff] at hacc
  have : 6 * (s : Int) < 5 * b := hacc.2.1
  omega

/-- C12. For an instance whose radii satisfy `6 * stick_radius ≥ 5 * base_radius` (the
limit `base_radius - 1.2 * stick_radius` is not positive), a press-move, whatever the
input device state, the pointer delta and the position of the handle, leaves the handle
where it is and invokes no callback; hence every sequence of press-moves delivered to the
handle leaves it where it is and adds no callback invocation. -/
theorem press_move_rejected_when_limit_not_positive (data : joystick_data_t)
    (indev : Option lv_point_t) (stick_obj : lv_obj_t) (x y : Int) (es : List lv_event_t)
    (calls : List callback_call)
    (h : 5 * data.base_radius ≤ 6 * data.stick_radius)
    (hes : ∀ e ∈ es, e.code = LV_EVENT_PRESSING) :
    joystick_handle_pressing data indev stick_obj = (stick_obj, []) ∧
    run (⟨x, y, user_data_t.live data⟩, calls) es =
      some (⟨x, y, user_data_t.live data⟩, calls) := by
  have step : ∀ (i : Option lv_point_t) (o : lv_obj_t),
      joystick_handle_pressing data i o = (o, []) := by
    intro i o
    rcases i with _ | v
    · rfl
    · exact pressing_rejected data v o
        (by rw [accepts_eq]; exact should_move_stick_false_of_limit _ _ _ _ h)
  refine ⟨step indev stick_obj, ?_⟩
  induction es with
  | nil => rfl
  | cons e es ih =>
    have hc : e.code = LV_EVENT_PRESSING := hes e (List.mem_cons_self _ _)
    have ih' := ih (fun e' he' => hes e' (List.mem_cons_of_mem _ he'))
    simp only [run, joystic_event_handler, hc, step, List.append_nil]
    exact ih'

/-- Witness for C12: base radius 10 and stick radius 9, which satisfy
`stick_radius < base_radius`; a press-move with delta (1, 0) and two press-moves in a
row from the centre. -/
theorem press_move_rejected_when_limit_not_positive_witness :
    5 * 10 ≤ 6 * 9 ∧
    joystick_handle_pressing ⟨7, 10, 9, JOYSTICK_REPORT_MODE_ABSOLUTE, some 1⟩
        (some ⟨1, 0⟩) ⟨0, 0, user_data_t.null⟩ = (⟨0, 0, user_data_t.null⟩, []) ∧
    run (⟨0, 0, user_data_t.live ⟨7, 10, 9, JOYSTICK_REPORT_MODE_ABSOLUTE, some 1⟩⟩, [])
        [press_move 1 0, press_move 0 (-1)]
      = some (⟨0, 0, user_data_t.live ⟨7, 10, 9, JOYSTICK_REPORT_MODE_ABSOLUTE, some 1⟩⟩,
          []) :=
  ⟨by decide,
    press_move_rejected_when_limit_not_positive
      ⟨7, 10, 9, JOYSTICK_REPORT_MODE_ABSOLUTE, some 1⟩ (some ⟨1, 0⟩)
      ⟨0, 0, user_data_t.null⟩ 0 0 [press_move 1 0, press_move 0 (-1)] []
      (by decide) (by simp [press_move])⟩

/-! ## C13: the sum of the RELATIVE reports -/

theorem reported_sum_append (a b : List callback_call) :
    reported_sum (a ++ b) =
      ((reported_sum a).1 + (reported_sum b).1, (reported_sum a).2 + (reported_sum b).2) := by
  simp [reported_sum, List.map_append, List.sum_append]

/-- C13, evaluated where the code departs from it. RELATIVE mode, radii 50 and 10, a
registered callback, the handle at the centre, one press-move with delta (65536, 0): the
move is accepted (`x * x` wraps to 0 in `int32_t`), the handle is put on (65536, 0), and
the callback receives (7, 0, 0) through its `int16_t` parameters, so the reports sum to
(0, 0), not to the position of the handle. -/
theorem relative_reports_do_not_sum_to_position :
    run (⟨0, 0, user_data_t.live ⟨7, 50, 10, JOYSTICK_REPORT_MODE_RELATIVE, some 1⟩⟩, [])
        [press_move 65536 0]
      = some (⟨65536, 0, user_data_t.live ⟨7, 50, 10, JOYSTICK_REPORT_MODE_RELATIVE, some 1⟩⟩,
          [⟨1, 7, 0, 0⟩]) ∧
    reported_sum [⟨1, 7, 0, 0⟩] = (0, 0) ∧
    reported_sum [⟨1, 7, 0, 0⟩] ≠ (65536, 0) := by
  refine ⟨?_, by decide, by decide⟩
  simp [run, press_move, joystic_event_handler, joystick_handle_pressing,
    should_move_stick_eq_decide, lv_obj_get_x_aligned, lv_obj_get_y_aligned, lv_obj_set_pos,
    joystick_trigger_callback]
  decide

theorem relative_step_keeps_sum (d : joystick_data_t) (cb : Nat) (hv : d.valid)
    (hm : d.report_mode = JOYSTICK_REPORT_MODE_RELATIVE)
    (hc : d.position_callback = some cb) (e : lv_event_t)
    (hcode : e.code = LV_EVENT_PRESSING) (he : bounded_drag e) (x y : Int)
    (hx : -254 ≤ x ∧ x ≤ 254) (hy : -254 ≤ y ∧ y ≤ 254) :
    ∃ x' y' calls,
      joystic_event_handler e.code e.indev ⟨x, y, user_data_t.live d⟩ =
        some (⟨x', y', user_data_t.live d⟩, calls) ∧
      (-254 ≤ x' ∧ x' ≤ 254) ∧ (-254 ≤ y' ∧ y' ≤ 254) ∧
      x' = x + (reported_sum calls).1 ∧ y' = y + (reported_sum calls).2 := by
  rcases hi : e.indev with _ | v
  · exact ⟨x, y, [], by simp [joystic_event_handler, hcode, joystick_handle_pressing],
      hx, hy, by simp [reported_sum], by simp [reported_sum]⟩
  · obtain ⟨⟨vx1, vx2⟩, ⟨vy1, vy2⟩⟩ := he.2 v hi
    rcases hacc : accepts d v ⟨x, y, user_data_t.live d⟩ with _ | _
    · exact ⟨x, y, [], by simp [joystic_event_handler, hcode, pressing_rejected _ _ _ hacc],
        hx, hy, by simp [reported_sum], by simp [reported_sum]⟩
    · have hlim := (accepts_iff_within_limit d v ⟨x, y, user_data_t.live d⟩ hv
        ⟨by linarith [hx.1], by linarith [hx.2]⟩
        ⟨by linarith [hy.1], by linarith [hy.2]⟩).mp hacc
      obtain ⟨-, px1, px2, py1, py2⟩ := within_limit_bound _ _ _ _ hv.2.1 hlim
      have ex : wrapInt32 (x + v.x) = x + v.x :=
        wrapInt32_of_range _ (by linarith [hx.1]) (by linarith [hx.2])
      have ey : wrapInt32 (y + v.y) = y + v.y :=
        wrapInt32_of_range _ (by linarith [hy.1]) (by linarith [hy.2])
      have hp := pressing_accepted_pos _ _ _ hacc
      have hcalls := pressing_accepted_calls _ _ _ hacc
      rw [hc, hm] at hcalls
      simp only [ex, ey, lv_obj_set_pos] at hp
      simp only at hcalls
      rw [wrapInt16_of_range _ (by linarith) (by linarith),
        wrapInt16_of_range _ (by linarith) (by linarith)] at hcalls
      refine ⟨x + v.x, y + v.y, [⟨cb, d.joystick_id, v.x, v.y⟩], ?_, ⟨px1, px2⟩, ⟨py1, py2⟩,
        by simp [reported_sum], by simp [reported_sum]⟩
      simp only [joystic_event_handler, hcode]
      exact congrArg some (Prod.ext hp hcalls)

/-- Away from the `int32_t` overflow the reports of RELATIVE mode add up to the position:
for 8-bit radii, from the centre, after any sequence of press-moves with deltas of at most
46086 on each axis. -/
theorem relative_reports_sum_to_position (d : joystick_data_t) (cb : Nat) (hv : d.valid)
    (hm : d.report_mode = JOYSTICK_REPORT_MODE_RELATIVE)
    (hc : d.position_callback = some cb) (es : List lv_event_t)
    (hes : ∀ e ∈ es, e.code = LV_EVENT_PRESSING ∧ bounded_drag e) :
    ∃ x y calls,
      run (⟨0, 0, user_data_t.live d⟩, []) es = some (⟨x, y, user_data_t.live d⟩, calls) ∧
      reported_sum calls = (x, y) := by
  have gen : ∀ (es : List lv_event_t) (x y : Int) (calls : List callback_call),
      (∀ e ∈ es, e.code = LV_EVENT_PRESSING ∧ bounded_drag e) →
      (-254 ≤ x ∧ x ≤ 254) → (-254 ≤ y ∧ y ≤ 254) → reported_sum calls = (x, y) →
      ∃ x' y' calls',
        run (⟨x, y, user_data_t.live d⟩, calls) es =
          some (⟨x', y', user_data_t.live d⟩, calls') ∧
        reported_sum calls' = (x', y') := by
    intro es
    induction es with
    | nil => intro x y calls _ _ _ hs; exact ⟨x, y, calls, rfl, hs⟩
    | cons e es ih =>
      intro x y calls hes hx hy hs
      obtain ⟨hcode, hb⟩ := hes e (List.mem_cons_self _ _)
      obtain ⟨x1, y1, c1, h1, hx1, hy1, ex1, ey1⟩ :=
        relative_step_keeps_sum d cb hv hm hc e hcode hb x y hx hy
      have hs1 : reported_sum (calls ++ c1) = (x1, y1) := by
        rw [reported_sum_append, hs, ex1, ey1]
      obtain ⟨x2, y2, c2, h2, hs2⟩ :=
        ih x1 y1 (calls ++ c1) (fun e' he' => hes e' (List.mem_cons_of_mem _ he')) hx1 hy1 hs1
      exact ⟨x2, y2, c2, by simp only [run, h1]; exact h2, hs2⟩
  exact gen es 0 0 [] hes (by decide) (by decide) (by simp [reported_sum])

/-! ## C14: the test in integers -/

/-- C14 as stated fails in its premise: with `|x| ≤ 46340` and `|y| ≤ 46340` each of
`x * x` and `y * y` fits `int32_t`, but their sum need not. At (46340, 46340) the sum is
4294791200, above 2147483647; in `int32_t` it wraps to -176096, a negative radicand, and
the candidate is rejected. -/
theorem radicand_overflows_within_46340 :
    ((-46340 : Int) ≤ 46340 ∧ (46340 : Int) ≤ 46340) ∧
    wrapInt32 (46340 * 46340) = 46340 * 46340 ∧
    (2147483647 : Int) < 46340 * 46340 + 46340 * 46340 ∧
    wrapInt32 (wrapInt32 (46340 * 46340) + wrapInt32 (46340 * 46340)) = -176096 ∧
    should_move_stick 255 0 46340 46340 = false := by
  refine ⟨by decide, by decide, by decide, by decide, ?_⟩
  rw [should_move_stick_eq_decide]; decide

/-- C14, amended. For every candidate `(x, y)` with `|x| ≤ 46340` and `|y| ≤ 46340` (each
of `x * x` and `y * y` fits `int32_t`; where their sum does not, it wraps to a negative
radicand and the candidate is rejected) and every pair of 8-bit radii `b`, `s`, the test
accepts exactly when `5 * b > 6 * s` and `25 * (x^2 + y^2) < (5 * b - 6 * s)^2`; every
such accepted candidate has `|x| ≤ 254` and `|y| ≤ 254`, and its conversion to the
`int16_t` arguments of the callback is the candidate itself. -/
theorem should_move_stick_in_integers (b s : Nat) (x y : Int) (hb : b < 256) (_hs : s < 256)
    (hx : -46340 ≤ x ∧ x ≤ 46340) (hy : -46340 ≤ y ∧ y ≤ 46340) :
    (should_move_stick b s x y = true ↔
      6 * (s : Int) < 5 * b ∧ 25 * (x * x + y * y) < (5 * (b : Int) - 6 * s) ^ 2) ∧
    (should_move_stick b s x y = true →
      (-254 ≤ x ∧ x ≤ 254) ∧ (-254 ≤ y ∧ y ≤ 254) ∧ wrapInt16 x = x ∧ wrapInt16 y = y) := by
  have hiff : should_move_stick b s x y = true ↔ within_limit b s x y :=
    ⟨within_limit_of_should_move_stick b s x y hx.1 hx.2 hy.1 hy.2,
      should_move_stick_of_within_limit b s x y hb⟩
  refine ⟨by rw [hiff, within_limit_iff], ?_⟩
  intro hacc
  obtain ⟨-, x1, x2, y1, y2⟩ := within_limit_bound b s x y hb (hiff.mp hacc)
  exact ⟨⟨x1, x2⟩, ⟨y1, y2⟩, wrapInt16_of_range _ (by linarith) (by linarith),
    wrapInt16_of_range _ (by linarith) (by linarith)⟩

/-- Witness for C14, amended: radii 50 and 10 and the candidate (30, -20), which is
accepted. -/
theorem should_move_stick_in_integers_witness :
    (50 < 256 ∧ 10 < 256) ∧ ((-46340 : Int) ≤ 30 ∧ (30 : Int) ≤ 46340) ∧
    ((-46340 : Int) ≤ -20 ∧ (-20 : Int) ≤ 46340) ∧
    (should_move_stick 50 10 30 (-20) = true ↔
      6 * ((10 : Nat) : Int) < 5 * (50 : Nat) ∧
        25 * ((30 : Int) * 30 + (-20) * (-20)) < (5 * ((50 : Nat) : Int) - 6 * (10 : Nat)) ^ 2) ∧
    should_move_stick 50 10 30 (-20) = true :=
  ⟨by decide, by decide, by decide,
    (should_move_stick_in_integers 50 10 30 (-20) (by decide) (by decide) (by decide)
      (by decide)).1,
    by rw [should_move_stick_eq_decide]; decide⟩

end LvglJoystick
